import Mathlib

/-!
Verification development for the sheet-ingestion and derived-metrics engine
of the amazon-crawler repository (src/src/models/researchSeries.model.js).
JS numbers are modelled as rationals (`ℚ`), JS `null`/`undefined` cell values
as an explicit `Cell.null` constructor, nullable record fields as `Option`,
and the Mongo-backed metric store as a list of records with delete-then-insert
modelled by `List.filter` plus append.
-/

namespace Crawler

/-! ### JS-style string primitives (ASCII fragment actually exercised by the sheets) -/

/-- ASCII lower-casing of one character, as `String.prototype.toLowerCase` acts on ASCII. -/
def lowerChar (c : Char) : Char :=
  if 'A' ≤ c ∧ c ≤ 'Z' then Char.ofNat (c.toNat + 32) else c

/-- JS `s.toLowerCase()` on the ASCII fragment. -/
def jsLower (s : String) : String := ⟨s.data.map lowerChar⟩

/-- Whitespace class used by the sheets' cells (the ASCII part of JS `\s`). -/
def isJsSpace (c : Char) : Bool := c = ' ' ∨ c = '\t' ∨ c = '\n' ∨ c = '\r'

/-- JS `s.trim()`. -/
def jsTrim (s : String) : String :=
  ⟨((s.data.dropWhile isJsSpace).reverse.dropWhile isJsSpace).reverse⟩

/-- Whether `pat` occurs at the head of `l`. -/
def headMatch : List Char → List Char → Bool
  | [], _ => true
  | _ :: _, [] => false
  | p :: ps, c :: cs => p = c && headMatch ps cs

/-- Whether `pat` occurs somewhere inside `l` (JS `String.prototype.includes`). -/
def subMatch (pat : List Char) : List Char → Bool
  | [] => headMatch pat []
  | c :: cs => headMatch pat (c :: cs) || subMatch pat cs

/-- JS `hay.includes(needle)`. -/
def jsIncludes (hay needle : String) : Bool := subMatch needle.data hay.data

/-- JS `Math.max(a, b)` on two (non-`NaN`) numbers. -/
def jsMax (a b : ℚ) : ℚ := if a ≤ b then b else a

/-- JS `Math.min(a, b)` on two (non-`NaN`) numbers. -/
def jsMin (a b : ℚ) : ℚ := if a ≤ b then a else b

def isDigitB (c : Char) : Bool := '0' ≤ c ∧ c ≤ '9'

def digitVal (c : Char) : ℕ := c.toNat - '0'.toNat

def natOfDigits (l : List Char) : ℕ := l.foldl (fun a c => 10 * a + digitVal c) 0

/-- Exponent part of a JS float literal (`e`/`E` already consumed);
an empty digit run yields exponent 0, as `parseFloat` then stops before the `e`. -/
def parseExpPart (l : List Char) : ℤ :=
  match l with
  | '+' :: t => (natOfDigits (t.takeWhile isDigitB) : ℤ)
  | '-' :: t => -(natOfDigits (t.takeWhile isDigitB) : ℤ)
  | _ => (natOfDigits (l.takeWhile isDigitB) : ℤ)

/-- Scale a rational by a signed power of ten. -/
def scalePow10 (q : ℚ) (e : ℤ) : ℚ :=
  if 0 ≤ e then q * (10 : ℚ) ^ e.toNat else q / (10 : ℚ) ^ (-e).toNat

/-- Mantissa-and-exponent part of JS `parseFloat`, after an optional sign;
`none` models `NaN` (no leading digits). Trailing junk is ignored, as in JS. -/
def parseFloatBody (l : List Char) : Option ℚ :=
  let intPart := l.takeWhile isDigitB
  let rest := l.dropWhile isDigitB
  let fracPart :=
    match rest with
    | '.' :: t => t.takeWhile isDigitB
    | _ => []
  let rest2 :=
    match rest with
    | '.' :: t => t.dropWhile isDigitB
    | _ => rest
  if intPart.isEmpty ∧ fracPart.isEmpty then none
  else
    let mant : ℚ := (natOfDigits intPart : ℚ) +
      (natOfDigits fracPart : ℚ) / (10 : ℚ) ^ fracPart.length
    let expo : ℤ :=
      match rest2 with
      | 'e' :: t => parseExpPart t
      | 'E' :: t => parseExpPart t
      | _ => 0
    some (scalePow10 mant expo)

/-- JS `parseFloat` on the decimal fragment (the `Infinity` literal, never produced
by the stripped sheet cells, is not modelled). `none` models `NaN`. -/
def jsParseFloat (s : String) : Option ℚ :=
  match s.data.dropWhile isJsSpace with
  | '-' :: t => (parseFloatBody t).map (fun q => -q)
  | '+' :: t => parseFloatBody t
  | l => parseFloatBody l

/-- JS `str.replace(/[,$\s]/g, '')` (also covers the `/[$,\s]/g` variant). -/
def stripMoney (s : String) : String :=
  ⟨s.data.filter (fun c => !(c = ',' || c = '$' || isJsSpace c))⟩

/-- JS `str.replace(/[,\s]/g, '')`. -/
def stripCommaSpace (s : String) : String :=
  ⟨s.data.filter (fun c => !(c = ',' || isJsSpace c))⟩

/-- JS `str.replace(/[%\s,]/g, '')`. -/
def stripPctSpaceComma (s : String) : String :=
  ⟨s.data.filter (fun c => !(c = '%' || c = ',' || isJsSpace c))⟩

/-- JS `str.replace(/[$,\s%]/g, '')`. -/
def stripMoneyPct (s : String) : String :=
  ⟨s.data.filter (fun c => !(c = '$' || c = ',' || c = '%' || isJsSpace c))⟩

/-! ### Raw sheet cells -/

/-- A raw spreadsheet cell: a string, a number, or JS `null`/`undefined`
(out-of-range row access also yields `Cell.null`). -/
inductive Cell where
  | null : Cell
  | str : String → Cell
  | num : ℚ → Cell
deriving DecidableEq, Repr

/-- Letter-free rendering of a numeric cell; stands in for the JS decimal rendering,
which is only ever inspected for (alphabetic) keyword containment. -/
def numToStr (q : ℚ) : String :=
  if q.den = 1 then toString q.num else toString q.num ++ "/" ++ toString q.den

/-- JS `String(cell || '')`: `null` and the falsy number `0` render as the empty string. -/
def jsStrOrEmpty : Cell → String
  | Cell.null => ""
  | Cell.str s => s
  | Cell.num q => if q = 0 then "" else numToStr q

/-- JS `row[i]` with out-of-range access giving `undefined`. -/
def cellAt (row : List Cell) (i : ℕ) : Cell := row.getD i Cell.null

/-- Parse a numeric cell the way the Market Analysis row loop does: numbers pass
through, strings are stripped by `strip` then fed to `parseFloat`, `null` is `NaN`. -/
def parseNumCell (strip : String → String) : Cell → Option ℚ
  | Cell.null => none
  | Cell.str s => jsParseFloat (strip s)
  | Cell.num q => some q

/-! ### Header detection (researchSeries.model.js lines 2399-2432, same loop at 3424-3441) -/

/-- The expected-keyword list for the Market Analysis sheet (lines 2399-2412). -/
def EXPECTED_MARKET_COL_KEYS : List String :=
  ["avg. monthly unit sales", "avg monthly unit sales",
   "avg. monthly revenue", "avg monthly revenue",
   "avg. price", "avg price",
   "avg. ratings", "avg ratings",
   "avg. rating", "avg rating",
   "sample size", "sample type"]

/-- Number of cells of a row whose lower-cased text contains some expected keyword
(the inner `matches` counter of lines 2416-2422). -/
def rowKeyScore (keys : List String) (r : List Cell) : ℕ :=
  r.countP (fun cell => keys.any (fun k => jsIncludes (jsLower (jsStrOrEmpty cell)) k))

/-- The scanning loop over candidate scores: `i` is the current row index, `bestIdx`
and `best` the running best row and its score (`best` starts at `-1`). -/
def bestRowAux : List ℕ → ℕ → ℕ → ℤ → ℕ
  | [], _, bestIdx, _ => bestIdx
  | sc :: rest, i, bestIdx, best =>
    if (sc : ℤ) > best then bestRowAux rest (i + 1) i (sc : ℤ)
    else bestRowAux rest (i + 1) bestIdx best

/-- Header-row detection (lines 2413-2427): score each of the first 10 rows and keep
the first row attaining a strictly larger score than all before it. -/
def detectHeaderRow (keys : List String) (rows : List (List Cell)) : ℕ :=
  bestRowAux ((rows.take 10).map (rowKeyScore keys)) 0 0 (-1)

/-! ### Metric records and the metric store -/

/-- A stored metric record (documents pushed onto `docs` and inserted via
`ResearchSeries.insertMany`); absent optional fields are `none`. -/
structure MetricDoc where
  datasetId : String
  categoryId : String
  metric : String
  bucket : String
  value : ℚ
  unit : String
  sourceSheet : String
  sampleSize : Option ℚ := none
  sampleType : Option String := none
  feePercent : Option ℚ := none
  basePrice : Option ℚ := none
deriving DecidableEq, Repr

/-- The metric store, as the multiset (kept in insertion order) of stored records. -/
abbrev MetricStore := List MetricDoc

/-- Store update `deleteMany({datasetId, sourceSheet})` followed by `insertMany(docs)`. -/
def replaceSheet (did sheet : String) (docs : List MetricDoc) (store : MetricStore) :
    MetricStore :=
  store.filter (fun d => !(d.datasetId = did && d.sourceSheet = sheet)) ++ docs

/-! ### Referral fee rules and the fee computation (lines 2709-2835) -/

/-- A referral fee rule; `none` in a price bound models a `null`/absent bound
(the rule table schema is external to the parser; per the data model an absent
`priceMax` means unbounded). -/
structure ReferralFeeRule where
  category : String
  priceMin : Option ℚ
  priceMax : Option ℚ
  feePercent : ℚ
  applyTo : Option String
  minFeeUSD : Option ℚ
deriving DecidableEq, Repr

/-- The category entity fields read by the referral-fee computation. -/
structure ResearchCategoryDoc where
  name : String
  referralFeePercentDefault : Option ℚ
  referralMinFeeUsd : Option ℚ
deriving DecidableEq, Repr

/-- Category-string normalization (lines 2722-2728): lower-case, expand `&` to
` and `, map non-alphanumerics to spaces, collapse space runs, trim. -/
def isLowerAlphaNum (c : Char) : Bool :=
  ('a' ≤ c ∧ c ≤ 'z') ∨ ('0' ≤ c ∧ c ≤ '9')

def collapseSpacesAux : Bool → List Char → List Char
  | _, [] => []
  | prevSpace, c :: t =>
    if c = ' ' then
      if prevSpace then collapseSpacesAux true t
      else ' ' :: collapseSpacesAux true t
    else c :: collapseSpacesAux false t

def normalizeCat (s : String) : String :=
  let l1 := (jsLower s).data
  let l2 := l1.flatMap (fun c => if c = '&' then " and ".data else [c])
  let l3 := l2.map (fun c => if isLowerAlphaNum c then c else ' ')
  jsTrim ⟨collapseSpacesAux false l3⟩

/-- Token set of a category string (lines 2729-2730): whitespace-split words of the
normalized string, with set semantics via deduplication. -/
def catTokens (s : String) : List String :=
  (((normalizeCat s).splitOn " ").filter (fun t => t ≠ "")).dedup

/-- Token-level Jaccard similarity (lines 2731-2741). -/
def jaccardQ (a b : String) : ℚ :=
  let A := catTokens a
  let B := catTokens b
  if A.isEmpty ∨ B.isEmpty then 0
  else
    let inter := (A.filter (fun t => B.contains t)).length
    (inter : ℚ) / ((A.length + B.length - inter : ℕ) : ℚ)

/-- Category match test (lines 2743-2753): substring either way on the normalized
strings (with a nonempty rule category), or Jaccard similarity at least 1/2. -/
def categoryMatches (ruleCategory productCategory : String) : Bool :=
  let rn := normalizeCat ruleCategory
  let pn := normalizeCat productCategory
  let substringMatch := jsIncludes pn rn || jsIncludes rn pn
  (rn.length > 0 && substringMatch) || jaccardQ ruleCategory productCategory ≥ 1/2

/-- Effective upper price bound of a rule in the filter (lines 2759-2762):
`null` and `0` both mean unbounded, encoded as `none`. -/
def effPriceMax (rule : ReferralFeeRule) : Option ℚ :=
  match rule.priceMax with
  | none => none
  | some x => if x = 0 then none else some x

/-- Whether a rule matches the product category and the row price
(the filter of lines 2720-2767). -/
def ruleMatches (catName : String) (price : ℚ) (rule : ReferralFeeRule) : Bool :=
  categoryMatches rule.category catName &&
    (price ≥ rule.priceMin.getD 0 &&
      match effPriceMax rule with
      | none => true
      | some m => price ≤ m)

/-- Sort key of the specificity sort (lines 2771-2777): the width
`(priceMax || Infinity) - (priceMin || 0)`, `none` standing for an infinite width. -/
def rangeKey (rule : ReferralFeeRule) : Option ℚ :=
  match effPriceMax rule with
  | none => none
  | some m => some (m - rule.priceMin.getD 0)

/-- Strict comparison on sort keys, `none` being the largest. -/
def rangeLt (a b : ReferralFeeRule) : Bool :=
  match rangeKey a, rangeKey b with
  | some p, some q => p < q
  | some _, none => true
  | none, _ => false

def insertByRange (x : ReferralFeeRule) : List ReferralFeeRule → List ReferralFeeRule
  | [] => [x]
  | y :: t => if rangeLt x y then x :: y :: t else y :: insertByRange x t

/-- Stable ascending sort by range width, as the (stable) JS sort of lines 2771-2777. -/
def sortRules (l : List ReferralFeeRule) : List ReferralFeeRule :=
  l.foldr insertByRange []

/-- Fee contribution of one matching rule (lines 2780-2809): `total` rules charge on
the whole price, `portion` rules on the slice of price inside the rule's band
(`priceMax || Infinity`, so `null` and `0` are unbounded), other apply-to kinds
contribute nothing. -/
def ruleContribution (price : ℚ) (rule : ReferralFeeRule) : ℚ :=
  let applyTo :=
    match rule.applyTo with
    | none => "total"
    | some s => if jsLower s = "" then "total" else jsLower s
  if applyTo = "total" then price * rule.feePercent
  else if applyTo = "portion" then
    let rMin := rule.priceMin.getD 0
    let pStart := jsMax rMin 0
    let pEnd :=
      match effPriceMax rule with
      | none => price
      | some m => jsMin price m
    let amt := jsMax 0 (pEnd - pStart)
    if amt > 0 then amt * rule.feePercent else 0
  else 0

/-- JS `Math.max(...)` of a list (the minimum-fee clamp of lines 2812-2814);
the list is nonempty at the call site, so an empty list defaults to 0. -/
def listMaxD : List ℚ → ℚ
  | [] => 0
  | h :: t => t.foldl jsMax h

/-- The referral-fee computation of lines 2710-2835, with all database reads made
explicit: the category document and the full rule table arrive as parameters.
Returns the fee value with the display percent, or `none` when no record is emitted. -/
def computeReferralFee (cat : Option ResearchCategoryDoc) (rules : List ReferralFeeRule)
    (price : ℚ) : Option (ℚ × Option ℚ) :=
  match cat with
  | none => none
  | some c =>
    if c.name = "" then none
    else
      let matching := rules.filter (ruleMatches c.name price)
      if matching.isEmpty then
        match c.referralFeePercentDefault with
        | none => none
        | some dp =>
          if dp > 0 then some (jsMax (price * dp) (c.referralMinFeeUsd.getD 0), some dp)
          else none
      else
        let sorted := sortRules matching
        let totalFee := (sorted.map (ruleContribution price)).sum
        let minFee := listMaxD (matching.map (fun r => r.minFeeUSD.getD 0))
        let total2 := if minFee > 0 then jsMax totalFee minFee else totalFee
        if total2 > 0 then some (total2, sorted.head?.map (fun r => r.feePercent))
        else none

/-! ### Market Analysis column resolution (lines 2454-2569) -/

/-- JS `\w` word character. -/
def isWordChar (c : Char) : Bool :=
  ('a' ≤ c ∧ c ≤ 'z') ∨ ('A' ≤ c ∧ c ≤ 'Z') ∨ ('0' ≤ c ∧ c ≤ '9') ∨ c = '_'

/-- Try to match `avg`, an optional dot, one-or-more whitespace, then `word`, with a
word boundary after, at the head of `l` (the tail of the regexes at lines 2544/2560). -/
def avgWordHere (word : List Char) (l : List Char) : Bool :=
  match l with
  | 'a' :: 'v' :: 'g' :: rest =>
    let rest2 := match rest with
      | '.' :: t => t
      | _ => rest
    match rest2 with
    | c :: t =>
      if isJsSpace c then
        let rest3 := t.dropWhile isJsSpace
        headMatch word rest3 &&
          (match (rest3.drop word.length).head? with
           | none => true
           | some d => !isWordChar d)
      else false
    | [] => false
  | _ => false

/-- Scan for the pattern of `avgWordHere` at any position preceded by a word
boundary: the test of `/\bavg\.?\s+rating(s)\b/` on a lower-cased header. -/
def avgWordScan (word : List Char) : Option Char → List Char → Bool
  | prev, l =>
    ((match prev with
      | none => true
      | some c => !isWordChar c) && avgWordHere word l) ||
      match l with
      | [] => false
      | c :: t => avgWordScan word (some c) t

/-- Predicate of the `Avg. Monthly Unit Sales` column lookup (lines 2455-2459). -/
def salesColPred (h : String) : Bool :=
  jsIncludes (jsLower h) "avg. monthly unit sales" ||
    jsIncludes (jsLower h) "avg monthly unit sales"

/-- Predicate of the `Avg. Monthly Revenue($)` column lookup (lines 2468-2473). -/
def revenueColPred (h : String) : Bool :=
  jsIncludes (jsLower h) "avg. monthly revenue" ||
    jsIncludes (jsLower h) "avg monthly revenue" ||
    jsIncludes (jsLower h) "avg. monthly revenue($)"

/-- Predicate of the time column lookup (lines 2482-2488). -/
def timeColPred (h : String) : Bool :=
  jsIncludes (jsLower h) "month" || jsIncludes (jsLower h) "date" ||
    jsIncludes (jsLower h) "period" || jsIncludes (jsLower h) "time"

/-- Predicate of the `Sample Size` column lookup (lines 2497-2502). -/
def sampleSizeColPred (h : String) : Bool :=
  jsIncludes (jsLower h) "sample size" || jsIncludes (jsLower h) "sample_size" ||
    jsIncludes (jsLower h) "samplesize"

/-- Predicate of the `Sample Type` column lookup (lines 2511-2516). -/
def sampleTypeColPred (h : String) : Bool :=
  jsIncludes (jsLower h) "sample type" || jsIncludes (jsLower h) "sample_type" ||
    jsIncludes (jsLower h) "sampletype"

/-- Predicate of the `Avg. Price($)` column lookup (lines 2525-2530). -/
def priceColPred (h : String) : Bool :=
  jsIncludes (jsLower h) "avg. price" || jsIncludes (jsLower h) "avg price" ||
    jsIncludes (jsLower h) "avg. price($)"

/-- Predicate of the `Avg. Ratings` column lookup (lines 2539-2546). -/
def ratingsColPred (h : String) : Bool :=
  jsIncludes (jsLower h) "avg. ratings" || jsIncludes (jsLower h) "avg ratings" ||
    avgWordScan "ratings".data none (jsLower h).data

/-- Predicate of the `Avg. Rating` (singular) column lookup (lines 2555-2563). -/
def ratingColPred (h : String) : Bool :=
  (jsIncludes (jsLower h) "avg. rating" || jsIncludes (jsLower h) "avg rating" ||
      avgWordScan "rating".data none (jsLower h).data) &&
    !jsIncludes (jsLower h) "ratings"

/-- Resolved column indices of the Market Analysis sheet. -/
structure MarketCols where
  sales : ℕ
  revenue : ℕ
  time : ℕ
  sampleSize : ℕ
  sampleType : ℕ
  price : ℕ
  ratings : ℕ
  rating : ℕ
deriving DecidableEq, Repr

/-- Resolution step `header.findIndex(pred)`, failing with the handler 400-error message. -/
def requireCol (p : String → Bool) (header : List String) (errMsg : String) :
    Except String ℕ :=
  match header.findIdx? p with
  | some i => Except.ok i
  | none => Except.error errMsg

/-- Column resolution of lines 2454-2569, in source order (the first missing
column decides the error). -/
def resolveMarketCols (header : List String) : Except String MarketCols := do
  let sales ← requireCol salesColPred header
    "Avg. Monthly Unit Sales column not found in Market Analysis sheet"
  let revenue ← requireCol revenueColPred header
    "Avg. Monthly Revenue($) column not found in Market Analysis sheet"
  let time ← requireCol timeColPred header
    "Time column not found in Market Analysis sheet"
  let sampleSize ← requireCol sampleSizeColPred header
    "Sample Size column not found in Market Analysis sheet"
  let sampleType ← requireCol sampleTypeColPred header
    "Sample Type column not found in Market Analysis sheet"
  let price ← requireCol priceColPred header
    "Avg. Price($) column not found in Market Analysis sheet"
  let ratings ← requireCol ratingsColPred header
    "Avg. Ratings column not found in Market Analysis sheet"
  let rating ← requireCol ratingColPred header
    "Avg. Rating column not found in Market Analysis sheet"
  return ⟨sales, revenue, time, sampleSize, sampleType, price, ratings, rating⟩

/-! ### Market Analysis row processing (lines 2574-2941) -/

/-- The ambient inputs of one Market Analysis ingestion call, with every database
read made explicit: `timeRangeFrom` is `dataset.timeRange?.from`, `latestFbaFeeUsd`
the preloaded FBA-fee constant of lines 2434-2453 (0 when the lookups fail), `cat`
the category document and `rules` the referral rule table read inside the loop. -/
structure MarketCtx where
  datasetId : String
  categoryId : String
  timeRangeFrom : Option String
  latestFbaFeeUsd : ℚ
  cat : Option ResearchCategoryDoc
  rules : List ReferralFeeRule
deriving DecidableEq, Repr

/-- JS `opt || dflt` on an optional string, the empty string being falsy. -/
def jsStrOr (o : Option String) (dflt : String) : String :=
  match o with
  | none => dflt
  | some s => if s = "" then dflt else s

/-- Records emitted for one data row of the Market Analysis sheet
(loop body, lines 2574-2941); a skipped row yields `[]`. -/
def marketRowDocs (ctx : MarketCtx) (cols : MarketCols) (row : List Cell) :
    List MetricDoc :=
  let rawTime := cellAt row cols.time
  let rawSales := cellAt row cols.sales
  let rawRevenue := cellAt row cols.revenue
  let rawSampleSize := cellAt row cols.sampleSize
  let rawSampleType := cellAt row cols.sampleType
  let rawPrice := cellAt row cols.price
  let rawRatings := cellAt row cols.ratings
  let rawRating := cellAt row cols.rating
  let sampleTypeStr := jsTrim (jsStrOrEmpty rawSampleType)
  if jsLower sampleTypeStr ≠ "all" then []
  else if rawTime = Cell.null ∨ rawSales = Cell.null ∨ rawRevenue = Cell.null ∨
      rawSampleSize = Cell.null ∨ rawSampleType = Cell.null ∨ rawPrice = Cell.null ∨
      rawRatings = Cell.null ∨ rawRating = Cell.null then []
  else
    let bucket := jsStrOr ctx.timeRangeFrom "overall"
    match parseNumCell stripMoney rawSales, parseNumCell stripMoney rawRevenue,
        parseNumCell stripMoney rawSampleSize, parseNumCell stripMoney rawPrice,
        parseNumCell stripCommaSpace rawRatings, parseNumCell stripCommaSpace rawRating with
    | some salesValue, some revenueValue, some sampleSize, some priceValue,
        some ratingsValue, some ratingValue =>
      if salesValue ≤ 0 ∨ revenueValue ≤ 0 ∨ sampleSize ≤ 0 ∨ priceValue ≤ 0 ∨
          ratingsValue ≤ 0 ∨ ratingValue ≤ 0 then []
      else
        let calculatedSales := salesValue * sampleSize
        let calculatedRevenue := revenueValue * 100
        let referral := computeReferralFee ctx.cat ctx.rules priceValue
        let referralDocs : List MetricDoc :=
          match referral with
          | some (fee, pct) =>
            [{ datasetId := ctx.datasetId, categoryId := ctx.categoryId,
               metric := "referral_fee", bucket := bucket, value := fee,
               unit := "usd", sourceSheet := "Market Analysis",
               sampleSize := some sampleSize, sampleType := some sampleTypeStr,
               feePercent := pct, basePrice := some priceValue }]
          | none => []
        let ads := (0.2 : ℚ) * priceValue
        let profitTarget := (0.2 : ℚ) * priceValue
        let feeSum := (match referral with
          | some (fee, _) => fee
          | none => 0) + ctx.latestFbaFeeUsd
        let cogsCap := priceValue - (ads + feeSum + profitTarget)
        let cogsAssumed := (0.2 : ℚ) * priceValue
        let profitDollar := priceValue - (ads + feeSum + cogsAssumed)
        let marginPct := if priceValue > 0 then profitDollar / priceValue * 100 else 0
        let roiPct := if cogsAssumed > 0 then profitDollar / cogsAssumed * 100 else 0
        [{ datasetId := ctx.datasetId, categoryId := ctx.categoryId,
           metric := "sales_units", bucket := bucket, value := calculatedSales,
           unit := "units", sourceSheet := "Market Analysis",
           sampleSize := some sampleSize, sampleType := some sampleTypeStr },
         { datasetId := ctx.datasetId, categoryId := ctx.categoryId,
           metric := "revenue", bucket := bucket, value := calculatedRevenue,
           unit := "usd", sourceSheet := "Market Analysis",
           sampleSize := some 100, sampleType := some sampleTypeStr },
         { datasetId := ctx.datasetId, categoryId := ctx.categoryId,
           metric := "avg_price", bucket := bucket, value := priceValue,
           unit := "usd", sourceSheet := "Market Analysis",
           sampleSize := some sampleSize, sampleType := some sampleTypeStr }] ++
        referralDocs ++
        [{ datasetId := ctx.datasetId, categoryId := ctx.categoryId,
           metric := "cogs_cap", bucket := bucket, value := cogsCap,
           unit := "usd", sourceSheet := "Derived" },
         { datasetId := ctx.datasetId, categoryId := ctx.categoryId,
           metric := "profit", bucket := bucket, value := profitDollar,
           unit := "usd", sourceSheet := "Derived" },
         { datasetId := ctx.datasetId, categoryId := ctx.categoryId,
           metric := "margin", bucket := bucket, value := marginPct,
           unit := "pct", sourceSheet := "Derived" },
         { datasetId := ctx.datasetId, categoryId := ctx.categoryId,
           metric := "roi", bucket := bucket, value := roiPct,
           unit := "pct", sourceSheet := "Derived" },
         { datasetId := ctx.datasetId, categoryId := ctx.categoryId,
           metric := "avg_ratings", bucket := bucket, value := ratingsValue,
           unit := "count", sourceSheet := "Market Analysis",
           sampleSize := some sampleSize, sampleType := some sampleTypeStr },
         { datasetId := ctx.datasetId, categoryId := ctx.categoryId,
           metric := "avg_rating", bucket := bucket, value := ratingValue,
           unit := "count", sourceSheet := "Market Analysis",
           sampleSize := some sampleSize, sampleType := some sampleTypeStr }]
    | _, _, _, _, _, _ => []

/-- The pure part of `handleMarketAnalysisSheet` (lines 2395-2948): header
re-detection, column resolution, the row loop, and the no-valid-rows check;
an `Except.error` models an early 400 response. -/
def marketAnalysisParse (ctx : MarketCtx) (rows : List (List Cell))
    (header0 : List String) : Except String (List MetricDoc) := do
  let headerRowIdx := detectHeaderRow EXPECTED_MARKET_COL_KEYS rows
  let header :=
    if headerRowIdx ≠ 0 then (rows.getD headerRowIdx []).map (fun c => jsTrim (jsStrOrEmpty c))
    else header0
  let cols ← resolveMarketCols header
  let docs := (rows.drop (headerRowIdx + 1)).flatMap (marketRowDocs ctx cols)
  if docs.isEmpty then Except.error "No valid data found in Market Analysis sheet"
  else return docs

/-- The store effect of `handleMarketAnalysisSheet` (lines 2950-2957): on success,
delete the records keyed `(datasetId, 'Market Analysis')` then insert the new docs;
an error response leaves the store untouched. -/
def marketAnalysisIngest (ctx : MarketCtx) (rows : List (List Cell))
    (header0 : List String) (store : MetricStore) : MetricStore :=
  match marketAnalysisParse ctx rows header0 with
  | Except.error _ => store
  | Except.ok docs => replaceSheet ctx.datasetId "Market Analysis" docs store

/-! ### Fulfillment sheet (lines 3057-3129) -/

/-- JS `String(cell)` without the falsy guard (used at line 3089, where `null` was
already excluded). -/
def jsStr : Cell → String
  | Cell.null => ""
  | Cell.str s => s
  | Cell.num q => numToStr q

/-- Fulfillment-type classification (lines 3089-3094): keep only letters, then
bucket by substring into `fba`/`fbm`/`amz`, exact `na`, else pass through. -/
def fulfillCode (rawType : Cell) : String :=
  let t := jsLower (jsTrim (jsStr rawType))
  let code : String := ⟨t.data.filter (fun c => 'a' ≤ c ∧ c ≤ 'z')⟩
  if jsIncludes code "fba" then "fba"
  else if jsIncludes code "fbm" then "fbm"
  else if jsIncludes code "amz" then "amz"
  else code

/-- Parse the ASINs-proportion cell (lines 3096-3100): numbers pass through,
strings are stripped of `%`, whitespace and commas then `parseFloat`-ed. -/
def fulfillParsePct : Cell → Option ℚ
  | Cell.null => none
  | Cell.str s => jsParseFloat (stripPctSpaceComma s)
  | Cell.num q => some q

/-- Percentage normalization of line 3102: a value in `(0, 1]` is scaled to
percentage points. -/
def normalizePctPoints (q : ℚ) : ℚ := if 0 < q ∧ q ≤ 1 then q * 100 else q

/-- JS `cell == null || cell === ''` (lines 3081-3086). -/
def isNullOrEmptyStr (c : Cell) : Bool :=
  match c with
  | Cell.null => true
  | Cell.str s => s = ""
  | Cell.num _ => false

/-- Records of one Fulfillment data row (loop body, lines 3077-3113). -/
def fulfillRowDocs (datasetId categoryId : String) (fulfillIdx propIdx : ℕ)
    (row : List Cell) : List MetricDoc :=
  let rawType := cellAt row fulfillIdx
  let rawProp := cellAt row propIdx
  if isNullOrEmptyStr rawType ∨ isNullOrEmptyStr rawProp then []
  else
    match fulfillParsePct rawProp with
    | none => []
    | some pct0 =>
      let pct := normalizePctPoints pct0
      [{ datasetId := datasetId, categoryId := categoryId,
         metric := "fulfillment_" ++ fulfillCode rawType, bucket := "overall",
         value := pct, unit := "pct", sourceSheet := "Fulfillment" }]

/-- Predicate of the fulfillment-type column (lines 3059-3061). -/
def fulfillColPred (h : String) : Bool := jsIncludes (jsLower h) "fulfillment"

/-- Predicate of the ASINs-proportion column (lines 3062-3068). -/
def propColPred (h : String) : Bool :=
  jsIncludes (jsLower h) "asins proportion" ||
    (jsIncludes (jsLower h) "asin" && jsIncludes (jsLower h) "proportion")

/-- The pure part of `handleFulfillmentSheet` (lines 3057-3119): resolve the two
columns (row 0 is taken as the header), process rows 1.., fail when no row is valid. -/
def fulfillmentParse (datasetId categoryId : String) (rows : List (List Cell))
    (header : List String) : Except String (List MetricDoc) :=
  match header.findIdx? fulfillColPred, header.findIdx? propColPred with
  | some fulfillIdx, some propIdx =>
    let docs := (rows.drop 1).flatMap (fulfillRowDocs datasetId categoryId fulfillIdx propIdx)
    if docs.isEmpty then Except.error "No valid rows found in Fulfillment sheet"
    else Except.ok docs
  | _, _ =>
    Except.error "Fulfillment or ASINs Proportion column not found in Fulfillment sheet"

/-- Store effect of `handleFulfillmentSheet` (lines 3121-3125). -/
def fulfillmentIngest (datasetId categoryId : String) (rows : List (List Cell))
    (header : List String) (store : MetricStore) : MetricStore :=
  match fulfillmentParse datasetId categoryId rows header with
  | Except.error _ => store
  | Except.ok docs => replaceSheet datasetId "Fulfillment" docs store

/-! ### Ads Metrics value parsing (lines 3832-3850) -/

/-- The `parseValue` helper of the Ads Metrics handler: strip `$`/commas/space/`%`
from strings, `parseFloat`, and when a percentage column holds a value above 1,
divide it by 100 (normalizing to a decimal fraction). -/
def adsParseValue (rawValue : Cell) (isPercentage : Bool) : Option ℚ :=
  match rawValue with
  | Cell.null => none
  | Cell.str s =>
    if s = "" then none
    else
      match jsParseFloat (stripMoneyPct s) with
      | none => none
      | some v => some (if isPercentage ∧ v > 1 then v / 100 else v)
  | Cell.num q => some (if isPercentage ∧ q > 1 then q / 100 else q)

/-! ### Batch auto-ingestion (lines 4519-4564) -/

/-- The sheets of one workbook relevant to the error-isolation property:
`none` means the sheet is absent, and the raw rows of a present sheet.
The three other standard sheets of the loop (Listing Concentration, Origin of
Seller, Publication Time) are handlers of the same shape over disjoint
`sourceSheet` keys and are not needed by any claim. -/
structure Workbook where
  marketAnalysis : Option (List (List Cell))
  fulfillment : Option (List (List Cell))
deriving DecidableEq, Repr

/-- Header extraction `rows[0].map(h => String(h || '').trim())` (line 4522). -/
def row0Header (rows : List (List Cell)) : List String :=
  (rows.headD []).map (fun c => jsTrim (jsStrOrEmpty c))

/-- The standard-sheet loop of `autoIngestStandardSheets` (lines 4519-4564)
restricted to the two modelled sheets, in loop order: each sheet is skipped when
absent or empty, and a handler error (a 400 response through the silent `res`, or
a thrown error caught at lines 4561-4563) leaves the store unchanged and lets the
next sheet proceed. -/
def autoIngestTwo (ctx : MarketCtx) (wb : Workbook) (store : MetricStore) :
    MetricStore :=
  let s1 :=
    match wb.marketAnalysis with
    | none => store
    | some rows =>
      if rows.isEmpty then store
      else marketAnalysisIngest ctx rows (row0Header rows) store
  match wb.fulfillment with
  | none => s1
  | some rows =>
    if rows.isEmpty then s1
    else fulfillmentIngest ctx.datasetId ctx.categoryId rows (row0Header rows) s1

/-! ### FBA fee band lookup (lines 4231-4286) -/

/-- One overage rule of an FBA fee rule. -/
structure OverageRule where
  overThresholdValue : ℚ
  overThresholdUnit : Option String
  stepValue : ℚ
  stepFeeUSD : Option ℚ
deriving DecidableEq, Repr

/-- An FBA fee rule (already filtered to the matched tier); absent numeric fields
are `none`, an absent overage list is `[]`. -/
structure FbaFeeRuleDoc where
  tier : String
  unit : Option String
  weightMin : Option ℚ
  weightMax : Option ℚ
  feeUSD : Option ℚ
  baseUSD : Option ℚ
  overageRules : List OverageRule
deriving DecidableEq, Repr

/-- Convert a weight in pounds to a rule's unit (`toUnit`/`overTo`,
lines 4232-4236 and 4260-4264): only `oz` rescales. -/
def toUnitLb (lb : ℚ) (unit : String) : ℚ := if unit = "oz" then lb * 16 else lb

/-- Whether the (unit-converted) shipping weight falls in the rule's weight band
(lines 4243-4247); `weightMin ?? 0`, `weightMax == null` means unbounded. -/
def bandContains (rule : FbaFeeRuleDoc) (shippingWeight : ℚ) : Bool :=
  let w := toUnitLb shippingWeight (jsStrOr rule.unit "oz")
  w ≥ rule.weightMin.getD 0 &&
    match rule.weightMax with
    | none => true
    | some m => w ≤ m

/-- Fee produced once a rule's band matched (lines 4248-4276): a fixed `feeUSD`
when present, else — only when `baseUSD` is present and the overage list nonempty —
the base plus `ceil(overage / stepValue) * stepFeeUSD` for each exceeded threshold;
otherwise no fee is produced. (`stepValue` is a positive step size in the rule
data; a zero step, which JS would send to an infinite fee, is outside the model.) -/
def ruleFee (rule : FbaFeeRuleDoc) (shippingWeight : ℚ) : Option ℚ :=
  match rule.feeUSD with
  | some f => some f
  | none =>
    match rule.baseUSD with
    | none => none
    | some b =>
      if rule.overageRules.isEmpty then none
      else
        some (b + (rule.overageRules.map (fun over =>
          let current := toUnitLb shippingWeight (over.overThresholdUnit.getD "")
          if current > over.overThresholdValue then
            ((Int.ceil ((current - over.overThresholdValue) / over.stepValue) : ℤ) : ℚ) *
              over.stepFeeUSD.getD 0
          else 0)).sum)

/-- The fee-band loop of lines 4242-4280: the first rule whose band contains the
shipping weight decides the outcome (and the loop breaks there); `none` models the
`No matching weight band in FBA fee rules` 400 error of lines 4282-4286. -/
def fbaFeeBandLookup : List FbaFeeRuleDoc → ℚ → Option ℚ
  | [], _ => none
  | rule :: rest, shippingWeight =>
    if bandContains rule shippingWeight then ruleFee rule shippingWeight
    else fbaFeeBandLookup rest shippingWeight

/-! ### Dimensional weight chain (lines 4137-4150) -/

/-- Dimensional weight `side * side * side / 139` (line 4140). `side` stands for
`Math.cbrt(Math.max(0, avgVolumeIn3))` (line 4137); the real cube root of a typical
volume is irrational, so the theorems take `side` as a parameter bracketed around
the cube root. -/
def dimensionalWeightOf (side : ℚ) : ℚ := side * side * side / 139

/-- Shipping weight `Math.max(avgWeightLb, dimensionalWeight)` (line 4143). -/
def shippingWeightOf (actualWeight dimensionalWeight : ℚ) : ℚ :=
  jsMax actualWeight dimensionalWeight

/-- The cubic dimension estimate of lines 4145-4150. -/
structure DimsEstimate where
  longest : ℚ
  median : ℚ
  shortest : ℚ
  lengthGirth : ℚ
deriving DecidableEq, Repr

/-- The `dims` object of lines 4145-4150: a cube of edge `side`, `lengthGirth = side + 2*(side+side)`. -/
def dimsOf (side : ℚ) : DimsEstimate :=
  { longest := side, median := side, shortest := side,
    lengthGirth := side + 2 * (side + side) }

/-! ### Read-time reconciliation (GET /research/metrics-summary, lines 4941-4997) -/

/-- A stored record as the summary route sees it: `sampleType` is
`String(it.sampleType || '')` (so `""` for a missing cohort), `sampleSize` a
nullable number (`Number(x) || 0` at use sites), `createdAt` a creation timestamp. -/
structure SeriesItem where
  metric : String
  bucket : String
  value : ℚ
  sampleType : String
  sampleSize : Option ℚ
  createdAt : ℕ
deriving DecidableEq, Repr

/-- The metrics that must come from an `All` cohort (lines 4942-4948). -/
def REQUIRE_ALL : List String :=
  ["sales_units", "revenue", "avg_price", "avg_ratings", "avg_rating"]

/-- The pre-filter of lines 4949-4952: records of a `REQUIRE_ALL` metric survive
only when `/^all$/i` matches their sample type. -/
def requireAllPass (it : SeriesItem) : Bool :=
  if REQUIRE_ALL.contains it.metric then jsLower it.sampleType = "all" else true

/-- Test `/all/i.test(sampleType)` (lines 4972 and 4977): an unanchored,
case-insensitive substring test. -/
def isAllLoose (s : String) : Bool := jsIncludes (jsLower s) "all"

/-- One update step of the `byMetricMonth` map for two records under the same
`(metric, month)` key (lines 4971-4993): an `All` record displaces a non-`All`
one; among two non-`All` records a strictly larger sample size wins; in every
other case a strictly later `createdAt` displaces the current selection. -/
def pickBetter (prev cur : SeriesItem) : SeriesItem :=
  let curAll := isAllLoose cur.sampleType
  let prevAll := isAllLoose prev.sampleType
  if !prevAll && curAll then cur
  else if (!prevAll && !curAll) && cur.sampleSize.getD 0 > prev.sampleSize.getD 0 then cur
  else if cur.createdAt > prev.createdAt then cur
  else prev

/-- Fold of the reconciliation loop over the records sharing one
`(metric, coerced month)` key, in iteration order. -/
def reconcileKey (items : List SeriesItem) : Option SeriesItem :=
  items.foldl (fun acc it =>
    match acc with
    | none => some it
    | some prev => some (pickBetter prev it)) none

/-- Read-time selection for one `(metric, month)` key: the `REQUIRE_ALL`
pre-filter of lines 4941-4952 followed by the reconciliation fold of
lines 4964-4994 (the grouping of distinct keys into the map is orthogonal
and not modelled). -/
def summarySelect (items : List SeriesItem) : Option SeriesItem :=
  reconcileKey (items.filter requireAllPass)

/-! ### Derived helpers and concrete fixtures used by the theorems -/

/-- Scores of the first ten rows, as scanned by the detector. -/
def scoresOf (keys : List String) (rows : List (List Cell)) : List ℕ :=
  (rows.take 10).map (rowKeyScore keys)

/-- Fallback `Number(referralFeeValue) || 0` (line 2862): the referral fee used by the
derived-metric block, 0 when no referral fee was computed. -/
def referralFeeOrZero (ctx : MarketCtx) (price : ℚ) : ℚ :=
  match computeReferralFee ctx.cat ctx.rules price with
  | some (fee, _) => fee
  | none => 0

/-- Membership key of the Market Analysis delete filter (lines 2951-2954). -/
def isMADoc (did : String) (d : MetricDoc) : Bool :=
  d.datasetId = did && d.sourceSheet = "Market Analysis"

/-- A record emitted by the derived-metric block (lines 2874-2912). -/
def isDerivedDoc (did : String) (d : MetricDoc) : Bool :=
  d.datasetId = did && d.sourceSheet = "Derived"

/-- Portion rule on the 0-10 price band at 8 percent. -/
def portionRuleLow : ReferralFeeRule := ⟨"toys", some 0, some 10, 8/100, some "portion", none⟩

/-- Portion rule on the unbounded band above 10 at 15 percent. -/
def portionRuleHigh : ReferralFeeRule := ⟨"toys", some 10, none, 15/100, some "portion", none⟩

/-- The category document matched by both portion rules. -/
def toysCategory : ResearchCategoryDoc := ⟨"toys", none, none⟩

/-- A fee rule carrying a fixed fee on the band up to 100 oz. -/
def fbaFixedRule : FbaFeeRuleDoc :=
  ⟨"Large Standard", some "oz", none, some 100, some (321/100), none, []⟩

/-- A base-plus-overage rule: base 2.50 USD, 0.16 USD per started half pound above 1 lb. -/
def fbaOverageRule : FbaFeeRuleDoc :=
  ⟨"Oversize", some "lb", none, none, none, some (5/2),
   [⟨1, some "lb", 1/2, some (16/100)⟩]⟩

/-- A rule with a base fee but an empty overage list (and no fixed fee). -/
def fbaBaseOnlyRule : FbaFeeRuleDoc :=
  ⟨"Oversize", some "lb", none, none, none, some (5/2), []⟩

/-- An `All`-cohort record created first. -/
def allEarlierItem : SeriesItem := ⟨"referral_fee", "2024-01", 1, "All", some 10, 1⟩

/-- A `Top 50`-cohort record with larger sample, created later. -/
def top50LaterItem : SeriesItem := ⟨"referral_fee", "2024-01", 2, "Top 50", some 20, 2⟩

/-- A `sales_units` record from the `All` cohort with the smaller sample size. -/
def salesAllItem : SeriesItem := ⟨"sales_units", "2024-01", 60000, "All", some 100, 1⟩

/-- A `sales_units` record from the `Top 50` cohort with the larger sample size. -/
def salesTop50Item : SeriesItem := ⟨"sales_units", "2024-01", 70000, "Top 50", some 500, 2⟩

/-- Two non-`All` records with equal creation time, the later-listed one larger. -/
def nonAllSmallItem : SeriesItem := ⟨"referral_fee", "2024-01", 1, "Top 10", some 7, 5⟩

def nonAllLargeItem : SeriesItem := ⟨"referral_fee", "2024-01", 2, "Top 50", some 9, 5⟩

/-- Header row of the concrete Market Analysis sheet fixture. -/
def maHeaderRow : List Cell :=
  [Cell.str "Month", Cell.str "Avg. Monthly Unit Sales", Cell.str "Avg. Monthly Revenue($)",
   Cell.str "Sample Size", Cell.str "Sample Type", Cell.str "Avg. Price($)",
   Cell.str "Avg. Ratings", Cell.str "Avg. Rating"]

/-- One valid `All`-cohort data row (the spec's example numbers). -/
def maDataRow : List Cell :=
  [Cell.str "2024-01", Cell.num 120, Cell.num 30, Cell.num 500, Cell.str "All",
   Cell.num 25, Cell.num 10, Cell.num 4]

/-- The concrete Market Analysis sheet fixture. -/
def maRows : List (List Cell) := [maHeaderRow, maDataRow]

/-- An ingestion context with no category document and an empty rule table. -/
def maCtx : MarketCtx := ⟨"d1", "c1", some "2024-01", 0, none, []⟩

def maHeader0 : List String := row0Header maRows

/-- Column indices as resolved on `maHeaderRow`. -/
def maCols : MarketCols := ⟨1, 2, 0, 3, 4, 5, 6, 7⟩

/-- The successful parse of the concrete Market Analysis fixture. -/
def maDocs0 : List MetricDoc :=
  match marketAnalysisParse maCtx maRows maHeader0 with
  | Except.ok docs => docs
  | Except.error _ => []

/-- A Market Analysis header lacking the Sample Type column (every earlier
column resolves). -/
def maHeaderRowNoSampleType : List Cell :=
  [Cell.str "Month", Cell.str "Avg. Monthly Unit Sales", Cell.str "Avg. Monthly Revenue($)",
   Cell.str "Sample Size", Cell.str "Avg. Price($)", Cell.str "Avg. Ratings",
   Cell.str "Avg. Rating"]

def maDataRowNoSampleType : List Cell :=
  [Cell.str "2024-01", Cell.num 120, Cell.num 30, Cell.num 500, Cell.num 25,
   Cell.num 10, Cell.num 4]

/-- The broken Market Analysis sheet of the degradation scenario. -/
def maRowsNoSampleType : List (List Cell) := [maHeaderRowNoSampleType, maDataRowNoSampleType]

/-- A well-formed Fulfillment sheet with one FBA row at 45 percent. -/
def fulfillRows : List (List Cell) :=
  [[Cell.str "Fulfillment", Cell.str "ASINs Proportion"],
   [Cell.str "FBA", Cell.str "45%"]]

/-- The workbook pairing the broken Market Analysis sheet with the good
Fulfillment sheet. -/
def mixedWorkbook : Workbook := ⟨some maRowsNoSampleType, some fulfillRows⟩

/-- A context with a nonzero FBA fee constant and a category default referral
percent of 15 percent (no table rules, so the fallback path computes the fee). -/
def c10Ctx : MarketCtx :=
  ⟨"d1", "c1", some "2024-01", 3, some ⟨"toys", some (15/100), none⟩, []⟩

/-- The record produced by the Fulfillment fixture row. -/
def fulFbaDoc : MetricDoc :=
  ⟨"d1", "c1", "fulfillment_fba", "overall", 45, "pct", "Fulfillment",
   none, none, none, none⟩

/-! ## Theorems -/

/-! ### Header detection (C5) -/

/-- Characterization of the scanning loop: either no score beats the running best
(and the running best index is returned), or the first strict running maximum of
the remaining scores is selected. -/
lemma bestRowAux_spec (l : List ℕ) : ∀ (i b : ℕ) (s : ℤ),
    (bestRowAux l i b s = b ∧ ∀ x ∈ l, (x : ℤ) ≤ s) ∨
    (∃ j, j < l.length ∧ bestRowAux l i b s = i + j ∧ s < (l.getD j 0 : ℤ) ∧
      (∀ x ∈ l, x ≤ l.getD j 0) ∧ ∀ k < j, l.getD k 0 < l.getD j 0) := by
  induction l with
  | nil => intro i b s; exact Or.inl ⟨rfl, by simp⟩
  | cons sc rest ih =>
    intro i b s
    by_cases h : (sc : ℤ) > s
    · have hstep : bestRowAux (sc :: rest) i b s = bestRowAux rest (i + 1) i (sc : ℤ) := by
        simp [bestRowAux, h]
      rcases ih (i + 1) i (sc : ℤ) with ⟨he, hall⟩ | ⟨j, hj, he, hlt, hmax, hbef⟩
      · refine Or.inr ⟨0, by simp, ?_, ?_, ?_, ?_⟩
        · rw [hstep, he]; omega
        · rw [List.getD_cons_zero]; omega
        · intro x hx
          rw [List.getD_cons_zero]
          rcases List.mem_cons.mp hx with rfl | hx
          · omega
          · have := hall x hx; omega
        · intro k hk; omega
      · refine Or.inr ⟨j + 1, by simp only [List.length_cons]; omega, ?_, ?_, ?_, ?_⟩
        · rw [hstep, he]; omega
        · rw [List.getD_cons_succ]; omega
        · intro x hx
          rw [List.getD_cons_succ]
          rcases List.mem_cons.mp hx with rfl | hx
          · omega
          · exact hmax x hx
        · intro k hk
          match k with
          | 0 => rw [List.getD_cons_zero, List.getD_cons_succ]; omega
          | k + 1 =>
            rw [List.getD_cons_succ, List.getD_cons_succ]
            exact hbef k (by omega)
    · have hstep : bestRowAux (sc :: rest) i b s = bestRowAux rest (i + 1) b s := by
        simp [bestRowAux, h]
      rcases ih (i + 1) b s with ⟨he, hall⟩ | ⟨j, hj, he, hlt, hmax, hbef⟩
      · refine Or.inl ⟨by rw [hstep, he], ?_⟩
        intro x hx
        rcases List.mem_cons.mp hx with rfl | hx
        · omega
        · exact hall x hx
      · refine Or.inr ⟨j + 1, by simp only [List.length_cons]; omega, ?_, ?_, ?_, ?_⟩
        · rw [hstep, he]; omega
        · rw [List.getD_cons_succ]; omega
        · intro x hx
          rw [List.getD_cons_succ]
          rcases List.mem_cons.mp hx with rfl | hx
          · omega
          · exact hmax x hx
        · intro k hk
          match k with
          | 0 => rw [List.getD_cons_zero, List.getD_cons_succ]; omega
          | k + 1 =>
            rw [List.getD_cons_succ, List.getD_cons_succ]
            exact hbef k (by omega)

/-- C5: the header detector examines at most the first 10 rows, scores each row by
the number of cells whose lower-cased text contains an expected keyword, selects
the earliest row attaining the maximal score (index 0 by default, in particular
when every row scores 0), and on a sheet whose row 0 is a title string and whose
row 1 holds the expected Market Analysis column names it selects row 1. -/
theorem c5_header_detection (keys : List String) (rows : List (List Cell)) :
    detectHeaderRow keys rows = detectHeaderRow keys (rows.take 10) ∧
    (∀ j < (scoresOf keys rows).length,
      (scoresOf keys rows).getD j 0 ≤
        (scoresOf keys rows).getD (detectHeaderRow keys rows) 0) ∧
    (∀ j < detectHeaderRow keys rows,
      (scoresOf keys rows).getD j 0 <
        (scoresOf keys rows).getD (detectHeaderRow keys rows) 0) ∧
    ((∀ x ∈ scoresOf keys rows, x = 0) → detectHeaderRow keys rows = 0) ∧
    detectHeaderRow EXPECTED_MARKET_COL_KEYS
      [[Cell.str "Market Analysis Report"],
       [Cell.str "Avg. Monthly Unit Sales", Cell.str "Sample Size",
        Cell.str "Sample Type", Cell.str "Avg. Price($)"]] = 1 := by
  have hdet : detectHeaderRow keys rows = bestRowAux (scoresOf keys rows) 0 0 (-1) := rfl
  rcases bestRowAux_spec (scoresOf keys rows) 0 0 (-1) with ⟨he, hall⟩ | ⟨j, hj, he, hlt, hmax, hbef⟩
  · have hnil : scoresOf keys rows = [] := by
      cases hsc : scoresOf keys rows with
      | nil => rfl
      | cons x xs =>
        have := hall x (by rw [hsc]; exact List.mem_cons_self x xs)
        omega
    have hzero : detectHeaderRow keys rows = 0 := by rw [hdet, he]
    refine ⟨?_, ?_, ?_, fun _ => hzero, by decide⟩
    · simp [detectHeaderRow, List.take_take]
    · intro j hjl; rw [hnil] at hjl; simp at hjl
    · intro j hjl; rw [hzero] at hjl; omega
  · have hidx : detectHeaderRow keys rows = j := by rw [hdet, he]; omega
    refine ⟨?_, ?_, ?_, ?_, by decide⟩
    · simp [detectHeaderRow, List.take_take]
    · intro k hk
      rw [hidx]
      have hmem : (scoresOf keys rows).getD k 0 ∈ scoresOf keys rows := by
        rw [List.getD_eq_getElem _ _ hk]
        exact List.getElem_mem hk
      exact hmax _ hmem
    · intro k hk
      rw [hidx] at hk ⊢
      exact hbef k hk
    · intro hz
      rw [hidx]
      by_contra hne
      have hj0 : 0 < j := Nat.pos_of_ne_zero hne
      have h0 : (scoresOf keys rows).getD 0 0 < (scoresOf keys rows).getD j 0 := hbef 0 hj0
      have hjz : (scoresOf keys rows).getD j 0 = 0 := by
        apply hz
        rw [List.getD_eq_getElem _ _ hj]
        exact List.getElem_mem hj
      omega

/-- Witness for C5 at the concrete fixture sheet: its score list is nonempty
and the score of row 0 is dominated by the score of the selected header row. -/
theorem c5_header_detection_witness :
    0 < (scoresOf EXPECTED_MARKET_COL_KEYS maRows).length ∧
    (scoresOf EXPECTED_MARKET_COL_KEYS maRows).getD 0 0 ≤
      (scoresOf EXPECTED_MARKET_COL_KEYS maRows).getD
        (detectHeaderRow EXPECTED_MARKET_COL_KEYS maRows) 0 :=
  ⟨by with_unfolding_all decide,
   (c5_header_detection EXPECTED_MARKET_COL_KEYS maRows).2.1 0
     (by with_unfolding_all decide)⟩

/-! ### Referral fee with portion rules (C1) -/

/-- C1 counterexample: with the two category-matching portion rules
`{priceMin 0, priceMax 10, 8 percent}` and `{priceMin 10, unbounded, 15 percent}`
and price 15, the computed referral fee is 0.75, not the claimed
`10*0.08 + 5*0.15 = 1.55`: the first rule fails the claim's own price filter
`priceMin ≤ price ≤ priceMax` (15 > 10), so only the second rule contributes. -/
theorem c1_portion_fee_counterexample :
    computeReferralFee (some toysCategory) [portionRuleLow, portionRuleHigh] 15 =
      some (3/4, some (3/20)) ∧ (3/4 : ℚ) ≠ 31/20 := by
  with_unfolding_all decide

/-- C1 (amended): a rule matches only if `priceMin ≤ price ≤ priceMax` (so at
price 15 the 0-10 band rule does not match while the unbounded rule does), and
the fee is the sum over the matching portion rules of the fee percent times the
slice of price inside that rule's band: here `(15-10) * 0.15 = 0.75`. -/
theorem c1_portion_fee_amended :
    ruleMatches "toys" 15 portionRuleLow = false ∧
    ruleMatches "toys" 15 portionRuleHigh = true ∧
    (∀ p : ℚ, ruleMatches "toys" p portionRuleLow =
      (decide (p ≥ 0) && decide (p ≤ 10))) ∧
    ruleContribution 15 portionRuleHigh = (15 - 10) * (15/100) ∧
    computeReferralFee (some toysCategory) [portionRuleLow, portionRuleHigh] 15 =
      some ((15 - 10) * (15/100), some (15/100)) := by
  refine ⟨by with_unfolding_all decide, by with_unfolding_all decide, ?_,
    by with_unfolding_all decide, by with_unfolding_all decide⟩
  intro p
  have hcat : categoryMatches portionRuleLow.category "toys" = true := by
    with_unfolding_all decide
  have hmax : effPriceMax portionRuleLow = some 10 := by with_unfolding_all decide
  have hmin : portionRuleLow.priceMin.getD 0 = 0 := by with_unfolding_all decide
  unfold ruleMatches
  rw [hcat, hmax, hmin]
  simp

/-! ### Percentage normalization (C8) -/

/-- C8 counterexample: the Ads Metrics `parseValue` normalizes a raw percentage
cell `"45%"` to the decimal fraction 0.45, not to 45.0 percentage points, so the
claim's universal statement over every raw percentage cell fails. -/
theorem c8_percentage_counterexample :
    adsParseValue (Cell.str "45%") true = some (9/20) ∧ (9/20 : ℚ) ≠ 45 := by
  with_unfolding_all decide

/-- C8 (amended): the Fulfillment-style normalizer maps `"45%"`, `0.45` and `83`
to 45.0, 45.0 and 83.0 percentage points (fractional values in `(0,1]` are scaled
by 100), while the Ads Metrics `parseValue` instead divides percentage values
above 1 by 100, mapping the same inputs to 0.45, 0.45 and 0.83. -/
theorem c8_percentage_amended :
    (fulfillParsePct (Cell.str "45%")).map normalizePctPoints = some 45 ∧
    (fulfillParsePct (Cell.num (9/20))).map normalizePctPoints = some 45 ∧
    (fulfillParsePct (Cell.num 83)).map normalizePctPoints = some 83 ∧
    adsParseValue (Cell.str "45%") true = some (9/20) ∧
    adsParseValue (Cell.num (9/20)) true = some (9/20) ∧
    adsParseValue (Cell.num 83) true = some (83/100) := by
  with_unfolding_all decide

/-! ### FBA fee band lookup (C6) -/

/-- C6 counterexample: a band that contains the shipping weight but carries a
`baseUSD` of 2.50 with an empty overage list produces no fee at all (the lookup
fails with the no-matching-band error), whereas the claim's
`baseUSD + empty sum = 2.50` demands `some 2.5`. -/
theorem c6_fee_band_counterexample :
    bandContains fbaBaseOnlyRule 5 = true ∧
    fbaFeeBandLookup [fbaBaseOnlyRule] 5 = none ∧
    fbaFeeBandLookup [fbaBaseOnlyRule] 5 ≠ some (5/2) := by
  with_unfolding_all decide

/-- C6 (amended): the lookup is decided by the first rule whose unit-converted
band contains the shipping weight; that rule yields its fixed `feeUSD` when
present, else `baseUSD` plus `ceil(overage/stepValue) * stepFeeUSD` per exceeded
threshold when `baseUSD` is present and the overage list is nonempty; when no
band contains the weight — or the first containing band has neither a fixed fee
nor base-plus-overages — the lookup fails with the no-matching-band error. -/
theorem c6_fee_band_amended :
    (∀ (rules : List FbaFeeRuleDoc) (w : ℚ),
      fbaFeeBandLookup rules w =
        (rules.find? (fun r => bandContains r w)).bind (fun r => ruleFee r w)) ∧
    fbaFeeBandLookup [fbaFixedRule] 5 = some (321/100) ∧
    fbaFeeBandLookup [fbaOverageRule] (23/10) = some (5/2 + 3 * (16/100)) ∧
    fbaFeeBandLookup [fbaFixedRule] 10 = none ∧
    fbaFeeBandLookup [fbaBaseOnlyRule] 5 = none := by
  refine ⟨?_, by with_unfolding_all decide, by with_unfolding_all decide,
    by with_unfolding_all decide, by with_unfolding_all decide⟩
  intro rules w
  induction rules with
  | nil => rfl
  | cons r rest ih =>
    by_cases h : bandContains r w
    · simp [fbaFeeBandLookup, List.find?_cons, h]
    · simp [fbaFeeBandLookup, List.find?_cons, h, ih]

/-! ### Time-bucket reconciliation (C3) -/

/-- The reconciliation fold over a nonempty key group is a plain `foldl` of the
two-record update step. -/
lemma reconcileKey_cons (x : SeriesItem) (xs : List SeriesItem) :
    reconcileKey (x :: xs) = some (xs.foldl pickBetter x) := by
  have key : ∀ (ys : List SeriesItem) (p : SeriesItem),
      List.foldl (fun acc it =>
        match acc with
        | none => some it
        | some prev => some (pickBetter prev it)) (some p) ys =
        some (ys.foldl pickBetter p) := by
    intro ys
    induction ys with
    | nil => intro p; rfl
    | cons y ys ih => intro p; exact ih (pickBetter p y)
  exact key xs x

/-- The update step always keeps one of its two records. -/
lemma pickBetter_cases (p c : SeriesItem) : pickBetter p c = p ∨ pickBetter p c = c := by
  simp only [pickBetter]
  split
  · exact Or.inr rfl
  · split
    · exact Or.inr rfl
    · split
      · exact Or.inr rfl
      · exact Or.inl rfl

/-- Without a strictly later creation time, the update step preserves an
`All` selection and upgrades to an `All` record. -/
lemma pickBetter_all (p c : SeriesItem) (ht : ¬ c.createdAt > p.createdAt)
    (h : isAllLoose p.sampleType = true ∨ isAllLoose c.sampleType = true) :
    isAllLoose (pickBetter p c).sampleType = true := by
  unfold pickBetter
  cases hp : isAllLoose p.sampleType <;> cases hc : isAllLoose c.sampleType
  · simp [hp, hc] at h
  · simp [hp, hc]
  · simp [hp, hc, ht]
  · simp [hp, hc, ht]

/-- Without a strictly later creation time, the update step on two non-`All`
records keeps a non-`All` record whose sample size dominates both. -/
lemma pickBetter_nonAll_size (p c : SeriesItem) (ht : ¬ c.createdAt > p.createdAt)
    (hp : isAllLoose p.sampleType = false) (hc : isAllLoose c.sampleType = false) :
    isAllLoose (pickBetter p c).sampleType = false ∧
    p.sampleSize.getD 0 ≤ (pickBetter p c).sampleSize.getD 0 ∧
    c.sampleSize.getD 0 ≤ (pickBetter p c).sampleSize.getD 0 := by
  unfold pickBetter
  by_cases hs : c.sampleSize.getD 0 > p.sampleSize.getD 0
  · simp [hp, hc, ht, hs]
    exact le_of_lt hs
  · simp [hp, hc, ht, hs]
    exact le_of_not_lt hs

/-- Fold invariant for records sharing one creation time: the selection is one of
the records, is `All` whenever any record is, and on an all-non-`All` group its
sample size dominates the group. -/
lemma foldl_pickBetter_spec (t : ℕ) (xs : List SeriesItem) :
    ∀ p : SeriesItem, p.createdAt = t → (∀ it ∈ xs, it.createdAt = t) →
      (xs.foldl pickBetter p ∈ p :: xs) ∧
      ((isAllLoose p.sampleType = true ∨ ∃ it ∈ xs, isAllLoose it.sampleType = true) →
        isAllLoose (xs.foldl pickBetter p).sampleType = true) ∧
      ((isAllLoose p.sampleType = false ∧ ∀ it ∈ xs, isAllLoose it.sampleType = false) →
        p.sampleSize.getD 0 ≤ (xs.foldl pickBetter p).sampleSize.getD 0 ∧
        ∀ it ∈ xs, it.sampleSize.getD 0 ≤ (xs.foldl pickBetter p).sampleSize.getD 0) := by
  induction xs with
  | nil =>
    intro p _ _
    refine ⟨by simp, ?_, ?_⟩
    · intro h
      rcases h with h | ⟨it, hit, _⟩
      · exact h
      · simp at hit
    · intro ⟨_, _⟩
      exact ⟨le_refl _, by intro it hit; simp at hit⟩
  | cons x xs ih =>
    intro p hp hxs
    have hx : x.createdAt = t := hxs x (List.mem_cons_self x xs)
    have ht : ¬ x.createdAt > p.createdAt := by omega
    have hqt : (pickBetter p x).createdAt = t := by
      rcases pickBetter_cases p x with h | h <;> rw [h] <;> assumption
    have hxs2 : ∀ it ∈ xs, it.createdAt = t :=
      fun it hit => hxs it (List.mem_cons_of_mem x hit)
    obtain ⟨ihmem, ihall, ihsize⟩ := ih (pickBetter p x) hqt hxs2
    rw [List.foldl_cons]
    refine ⟨?_, ?_, ?_⟩
    · rcases List.mem_cons.mp ihmem with h | h
      · rw [h]
        rcases pickBetter_cases p x with h2 | h2 <;> rw [h2]
        · exact List.mem_cons_self p (x :: xs)
        · exact List.mem_cons_of_mem p (List.mem_cons_self x xs)
      · exact List.mem_cons_of_mem p (List.mem_cons_of_mem x h)
    · intro hor
      apply ihall
      rcases hor with hall | ⟨it, hit, hall⟩
      · exact Or.inl (pickBetter_all p x ht (Or.inl hall))
      · rcases List.mem_cons.mp hit with hxeq | hit2
        · exact Or.inl (pickBetter_all p x ht (Or.inr (hxeq ▸ hall)))
        · exact Or.inr ⟨it, hit2, hall⟩
    · intro ⟨hpf, hxf⟩
      have hxall : isAllLoose x.sampleType = false := hxf x (List.mem_cons_self x xs)
      have hrest : ∀ it ∈ xs, isAllLoose it.sampleType = false :=
        fun it hit => hxf it (List.mem_cons_of_mem x hit)
      obtain ⟨hqf, hpq, hxq⟩ := pickBetter_nonAll_size p x ht hpf hxall
      obtain ⟨hq1, hq2⟩ := ihsize ⟨hqf, hrest⟩
      refine ⟨le_trans hpq hq1, ?_⟩
      intro it hit
      rcases List.mem_cons.mp hit with hxeq | hit2
      · rw [hxeq]
        exact le_trans hxq hq1
      · exact hq2 it hit2

/-- C3 counterexample: for a metric outside the REQUIRE_ALL pre-filter, a
later-created `Top 50` record displaces an earlier `All` record for the same
month — the creation-time comparison is a fall-through, not only a final
tie-break, so the claim's All-first selection order fails. -/
theorem c3_reconciliation_counterexample :
    isAllLoose allEarlierItem.sampleType = true ∧
    summarySelect [allEarlierItem, top50LaterItem] = some top50LaterItem ∧
    isAllLoose top50LaterItem.sampleType = false := by
  with_unfolding_all decide

/-- C3 (amended): when no record of the group was created strictly later than an
earlier one (e.g. all creation times equal), the reconciler selects a member of
the group that is `All` whenever any `All` record exists and otherwise carries
the largest sample size; the claim's `sales_units` instance (one `All` record,
one larger `Top 50` record) selects the `All` record because the REQUIRE_ALL
pre-filter removes the `Top 50` record; but a strictly later creation time
displaces the current selection even against an `All` record. -/
theorem c3_reconciliation_amended :
    (∀ (t : ℕ) (x : SeriesItem) (xs : List SeriesItem),
      (∀ it ∈ x :: xs, it.createdAt = t) →
      ∃ sel, reconcileKey (x :: xs) = some sel ∧ sel ∈ x :: xs ∧
        ((∃ it ∈ x :: xs, isAllLoose it.sampleType = true) →
          isAllLoose sel.sampleType = true) ∧
        ((∀ it ∈ x :: xs, isAllLoose it.sampleType = false) →
          ∀ it ∈ x :: xs, it.sampleSize.getD 0 ≤ sel.sampleSize.getD 0)) ∧
    summarySelect [salesAllItem, salesTop50Item] = some salesAllItem ∧
    (∀ prev cur, cur.createdAt > prev.createdAt →
      isAllLoose prev.sampleType = true → isAllLoose cur.sampleType = false →
      pickBetter prev cur = cur) := by
  refine ⟨?_, by with_unfolding_all rfl, ?_⟩
  · intro t x xs hts
    have hx : x.createdAt = t := hts x (List.mem_cons_self x xs)
    have hxs : ∀ it ∈ xs, it.createdAt = t :=
      fun it hit => hts it (List.mem_cons_of_mem x hit)
    obtain ⟨hmem, hall, hsize⟩ := foldl_pickBetter_spec t xs x hx hxs
    refine ⟨xs.foldl pickBetter x, reconcileKey_cons x xs, hmem, ?_, ?_⟩
    · intro ⟨it, hit, hia⟩
      apply hall
      rcases List.mem_cons.mp hit with hxeq | hit2
      · exact Or.inl (hxeq ▸ hia)
      · exact Or.inr ⟨it, hit2, hia⟩
    · intro hnf
      have hxf := hnf x (List.mem_cons_self x xs)
      have hrest : ∀ it ∈ xs, isAllLoose it.sampleType = false :=
        fun it hit => hnf it (List.mem_cons_of_mem x hit)
      obtain ⟨h1, h2⟩ := hsize ⟨hxf, hrest⟩
      intro it hit
      rcases List.mem_cons.mp hit with hxeq | hit2
      · rw [hxeq]
        exact h1
      · exact h2 it hit2
  · intro prev cur hc hpa hca
    unfold pickBetter
    simp [hpa, hca, hc]

/-- Witness for the amended C3 reconciliation theorem at a concrete
equal-creation-time group of two non-`All` records. -/
theorem c3_reconciliation_amended_witness :
    (∀ it ∈ nonAllSmallItem :: [nonAllLargeItem], it.createdAt = 5) ∧
    (∃ sel, reconcileKey (nonAllSmallItem :: [nonAllLargeItem]) = some sel ∧
      sel ∈ nonAllSmallItem :: [nonAllLargeItem] ∧
      ((∃ it ∈ nonAllSmallItem :: [nonAllLargeItem],
          isAllLoose it.sampleType = true) → isAllLoose sel.sampleType = true) ∧
      ((∀ it ∈ nonAllSmallItem :: [nonAllLargeItem],
          isAllLoose it.sampleType = false) →
        ∀ it ∈ nonAllSmallItem :: [nonAllLargeItem],
          it.sampleSize.getD 0 ≤ sel.sampleSize.getD 0)) :=
  ⟨by with_unfolding_all decide,
   c3_reconciliation_amended.1 5 nonAllSmallItem [nonAllLargeItem]
     (by with_unfolding_all decide)⟩

/-! ### Re-ingestion and the delete-then-insert key (C2) -/

/-- Records matching the delete key of `replaceSheet` come only from the freshly
inserted batch: the prior store's are all deleted. -/
lemma replaceSheet_filter_key (did sheet : String) (docs : List MetricDoc)
    (store : MetricStore) (p : MetricDoc → Bool)
    (hp : ∀ d, p d = true → (d.datasetId = did && d.sourceSheet = sheet) = true) :
    (replaceSheet did sheet docs store).filter p = docs.filter p := by
  unfold replaceSheet
  rw [List.filter_append]
  have h0 : (store.filter
      (fun d => !(d.datasetId = did && d.sourceSheet = sheet))).filter p = [] := by
    rw [List.filter_filter]
    apply List.filter_eq_nil_iff.mpr
    intro a _ hcon
    rw [Bool.and_eq_true] at hcon
    obtain ⟨hpa, hka⟩ := hcon
    rw [hp a hpa] at hka
    simp at hka
  rw [h0, List.nil_append]

/-- Records outside the delete key accumulate: the new store keeps the prior
ones and appends the fresh batch's. -/
lemma replaceSheet_filter_disjoint (did sheet : String) (docs : List MetricDoc)
    (store : MetricStore) (p : MetricDoc → Bool)
    (hp : ∀ d, p d = true → (d.datasetId = did && d.sourceSheet = sheet) = false) :
    (replaceSheet did sheet docs store).filter p = store.filter p ++ docs.filter p := by
  unfold replaceSheet
  rw [List.filter_append]
  congr 1
  rw [List.filter_filter]
  apply List.filter_congr
  intro a _
  cases hpa : p a with
  | false => simp [hpa]
  | true => simp [hpa, hp a hpa]

/-- C2 counterexample: re-ingesting the same Market Analysis sheet duplicates
the derived records — after two ingestions of the fixture the store holds two
`profit` records where one ingestion leaves one, so the final record set after
two runs is not the set after one. -/
theorem c2_idempotence_counterexample :
    ((marketAnalysisIngest maCtx maRows maHeader0
        (marketAnalysisIngest maCtx maRows maHeader0 [])).filter
      (fun d => d.metric = "profit")).length = 2 ∧
    ((marketAnalysisIngest maCtx maRows maHeader0 []).filter
      (fun d => d.metric = "profit")).length = 1 ∧
    marketAnalysisIngest maCtx maRows maHeader0
        (marketAnalysisIngest maCtx maRows maHeader0 []) ≠
      marketAnalysisIngest maCtx maRows maHeader0 [] := by
  refine ⟨by with_unfolding_all rfl, by with_unfolding_all rfl, ?_⟩
  intro hcon
  have hlen : (((marketAnalysisIngest maCtx maRows maHeader0
      (marketAnalysisIngest maCtx maRows maHeader0 [])).filter
        (fun d => d.metric = "profit")).length : ℕ) =
      ((marketAnalysisIngest maCtx maRows maHeader0 []).filter
        (fun d => d.metric = "profit")).length := by rw [hcon]
  rw [show ((marketAnalysisIngest maCtx maRows maHeader0
      (marketAnalysisIngest maCtx maRows maHeader0 [])).filter
        (fun d => d.metric = "profit")).length = 2 from by with_unfolding_all rfl,
    show ((marketAnalysisIngest maCtx maRows maHeader0 []).filter
        (fun d => d.metric = "profit")).length = 1 from by with_unfolding_all rfl] at hlen
  omega

/-- C2 (amended): on a successful parse, records keyed
`(datasetId, 'Market Analysis')` are fully replaced — so that subset is identical
after one and after two ingestions of the same input, whatever the prior store —
but the derived `cogs_cap`/`profit`/`margin`/`roi` records carry
`sourceSheet = 'Derived'`, fall outside the delete key, and accumulate: the new
store appends the fresh derived batch to whatever derived records already exist. -/
theorem c2_replacement_amended (ctx : MarketCtx) (rows : List (List Cell))
    (header0 : List String) (store : MetricStore) (docs : List MetricDoc)
    (h : marketAnalysisParse ctx rows header0 = Except.ok docs) :
    (marketAnalysisIngest ctx rows header0 store).filter (isMADoc ctx.datasetId) =
      docs.filter (isMADoc ctx.datasetId) ∧
    (marketAnalysisIngest ctx rows header0
        (marketAnalysisIngest ctx rows header0 store)).filter (isMADoc ctx.datasetId) =
      (marketAnalysisIngest ctx rows header0 store).filter (isMADoc ctx.datasetId) ∧
    (marketAnalysisIngest ctx rows header0 store).filter (isDerivedDoc ctx.datasetId) =
      store.filter (isDerivedDoc ctx.datasetId) ++
        docs.filter (isDerivedDoc ctx.datasetId) := by
  have hing : ∀ st : MetricStore, marketAnalysisIngest ctx rows header0 st =
      replaceSheet ctx.datasetId "Market Analysis" docs st := by
    intro st
    unfold marketAnalysisIngest
    rw [h]
  have hkey : ∀ d, isMADoc ctx.datasetId d = true →
      (d.datasetId = ctx.datasetId && d.sourceSheet = "Market Analysis") = true :=
    fun d hd => hd
  have hdisj : ∀ d, isDerivedDoc ctx.datasetId d = true →
      (d.datasetId = ctx.datasetId && d.sourceSheet = "Market Analysis") = false := by
    intro d hd
    unfold isDerivedDoc at hd
    rw [Bool.and_eq_true] at hd
    obtain ⟨_, h2⟩ := hd
    have hder : d.sourceSheet = "Derived" := of_decide_eq_true h2
    have : decide (d.sourceSheet = "Market Analysis") = false := by
      apply decide_eq_false
      rw [hder]
      intro hcon
      exact absurd hcon (by decide)
    simp [this]
  refine ⟨?_, ?_, ?_⟩
  · rw [hing]
    exact replaceSheet_filter_key _ _ _ _ _ hkey
  · rw [hing store, hing (replaceSheet ctx.datasetId "Market Analysis" docs store)]
    rw [replaceSheet_filter_key _ _ _ _ _ hkey, replaceSheet_filter_key _ _ _ _ _ hkey]
  · rw [hing]
    exact replaceSheet_filter_disjoint _ _ _ _ _ hdisj

/-- Witness for the amended C2 theorem at the concrete fixture sheet (starting
from the empty store). -/
theorem c2_replacement_amended_witness :
    marketAnalysisParse maCtx maRows maHeader0 = Except.ok maDocs0 ∧
    ((marketAnalysisIngest maCtx maRows maHeader0 []).filter (isMADoc maCtx.datasetId) =
      maDocs0.filter (isMADoc maCtx.datasetId) ∧
    (marketAnalysisIngest maCtx maRows maHeader0
        (marketAnalysisIngest maCtx maRows maHeader0 [])).filter (isMADoc maCtx.datasetId) =
      (marketAnalysisIngest maCtx maRows maHeader0 []).filter (isMADoc maCtx.datasetId) ∧
    (marketAnalysisIngest maCtx maRows maHeader0 []).filter (isDerivedDoc maCtx.datasetId) =
      ([] : MetricStore).filter (isDerivedDoc maCtx.datasetId) ++
        maDocs0.filter (isDerivedDoc maCtx.datasetId)) :=
  ⟨by with_unfolding_all rfl,
   c2_replacement_amended maCtx maRows maHeader0 [] maDocs0 (by with_unfolding_all rfl)⟩

/-! ### Market Analysis derivation (C4) -/

/-- C4: only rows whose trimmed Sample Type equals `All` case-insensitively
produce records at all, and every valid such row emits a `sales_units` record of
value `avgMonthlyUnitSales * sampleSize` (unit `units`) and a `revenue` record
of value `avgMonthlyRevenue * 100` (unit `usd`). -/
theorem c4_sales_revenue_derivation (ctx : MarketCtx) (cols : MarketCols) :
    (∀ row : List Cell,
      jsLower (jsTrim (jsStrOrEmpty (cellAt row cols.sampleType))) ≠ "all" →
      marketRowDocs ctx cols row = []) ∧
    (∀ (row : List Cell) (stype : String) (s rv n p rts rt : ℚ),
      cellAt row cols.sampleType = Cell.str stype →
      jsLower (jsTrim stype) = "all" →
      cellAt row cols.time ≠ Cell.null →
      cellAt row cols.sales = Cell.num s → 0 < s →
      cellAt row cols.revenue = Cell.num rv → 0 < rv →
      cellAt row cols.sampleSize = Cell.num n → 0 < n →
      cellAt row cols.price = Cell.num p → 0 < p →
      cellAt row cols.ratings = Cell.num rts → 0 < rts →
      cellAt row cols.rating = Cell.num rt → 0 < rt →
      (marketRowDocs ctx cols row).filter (fun d => d.metric = "sales_units") =
        [{ datasetId := ctx.datasetId, categoryId := ctx.categoryId,
           metric := "sales_units", bucket := jsStrOr ctx.timeRangeFrom "overall",
           value := s * n, unit := "units", sourceSheet := "Market Analysis",
           sampleSize := some n, sampleType := some (jsTrim stype) }] ∧
      (marketRowDocs ctx cols row).filter (fun d => d.metric = "revenue") =
        [{ datasetId := ctx.datasetId, categoryId := ctx.categoryId,
           metric := "revenue", bucket := jsStrOr ctx.timeRangeFrom "overall",
           value := rv * 100, unit := "usd", sourceSheet := "Market Analysis",
           sampleSize := some 100, sampleType := some (jsTrim stype) }]) := by
  constructor
  · intro row hne
    unfold marketRowDocs
    rw [if_pos hne]
  · intro row stype s rv n p rts rt h1 h2 h3 h4 hs h5 hrv h6 hn h7 hp0 h8 hrts h9 hrt
    have hs' := not_le.mpr hs
    have hrv' := not_le.mpr hrv
    have hn' := not_le.mpr hn
    have hp' := not_le.mpr hp0
    have hrts' := not_le.mpr hrts
    have hrt' := not_le.mpr hrt
    cases hr : computeReferralFee ctx.cat ctx.rules p with
    | none =>
      simp [marketRowDocs, jsStrOrEmpty, parseNumCell, h1, h2, h3, h4, h5, h6, h7, h8,
        h9, hs', hrv', hn', hp', hrts', hrt', hr, List.filter]
    | some pr =>
      obtain ⟨fee, pct⟩ := pr
      simp [marketRowDocs, jsStrOrEmpty, parseNumCell, h1, h2, h3, h4, h5, h6, h7, h8,
        h9, hs', hrv', hn', hp', hrts', hrt', hr, List.filter]

/-- Witness for C4 at the spec's example row
`{avgMonthlyUnitSales 120, sampleSize 500, avgMonthlyRevenue 30, sampleType All}`:
`sales_units = 120 * 500 = 60000` and `revenue = 30 * 100 = 3000`. -/
theorem c4_sales_revenue_derivation_witness :
    cellAt maDataRow maCols.sampleType = Cell.str "All" ∧
    jsLower (jsTrim "All") = "all" ∧
    cellAt maDataRow maCols.time ≠ Cell.null ∧
    cellAt maDataRow maCols.sales = Cell.num 120 ∧ (0:ℚ) < 120 ∧
    cellAt maDataRow maCols.revenue = Cell.num 30 ∧ (0:ℚ) < 30 ∧
    cellAt maDataRow maCols.sampleSize = Cell.num 500 ∧ (0:ℚ) < 500 ∧
    cellAt maDataRow maCols.price = Cell.num 25 ∧ (0:ℚ) < 25 ∧
    cellAt maDataRow maCols.ratings = Cell.num 10 ∧ (0:ℚ) < 10 ∧
    cellAt maDataRow maCols.rating = Cell.num 4 ∧ (0:ℚ) < 4 ∧
    ((marketRowDocs maCtx maCols maDataRow).filter (fun d => d.metric = "sales_units") =
      [{ datasetId := maCtx.datasetId, categoryId := maCtx.categoryId,
         metric := "sales_units", bucket := jsStrOr maCtx.timeRangeFrom "overall",
         value := 120 * 500, unit := "units", sourceSheet := "Market Analysis",
         sampleSize := some 500, sampleType := some (jsTrim "All") }] ∧
     (marketRowDocs maCtx maCols maDataRow).filter (fun d => d.metric = "revenue") =
      [{ datasetId := maCtx.datasetId, categoryId := maCtx.categoryId,
         metric := "revenue", bucket := jsStrOr maCtx.timeRangeFrom "overall",
         value := 30 * 100, unit := "usd", sourceSheet := "Market Analysis",
         sampleSize := some 100, sampleType := some (jsTrim "All") }]) ∧
    (120 * 500 : ℚ) = 60000 ∧ (30 * 100 : ℚ) = 3000 :=
  ⟨by with_unfolding_all rfl, by with_unfolding_all rfl, by with_unfolding_all decide,
   by with_unfolding_all rfl, by norm_num, by with_unfolding_all rfl, by norm_num,
   by with_unfolding_all rfl, by norm_num, by with_unfolding_all rfl, by norm_num,
   by with_unfolding_all rfl, by norm_num, by with_unfolding_all rfl, by norm_num,
   (c4_sales_revenue_derivation maCtx maCols).2 maDataRow "All" 120 30 500 25 10 4
     (by with_unfolding_all rfl) (by with_unfolding_all rfl)
     (by with_unfolding_all decide) (by with_unfolding_all rfl) (by norm_num)
     (by with_unfolding_all rfl) (by norm_num) (by with_unfolding_all rfl) (by norm_num)
     (by with_unfolding_all rfl) (by norm_num) (by with_unfolding_all rfl) (by norm_num)
     (by with_unfolding_all rfl) (by norm_num),
   by norm_num, by norm_num⟩

/-! ### Profit equals cost cap (C10) -/

/-- C10: for every valid Market Analysis row, the derived `profit` record and the
derived `cogs_cap` record coincide (same bucket, unit and value), both equal to
`price - (0.2*price + (referralFee + fbaFee) + 0.2*price)`, because the assumed
COGS used for profit and the profit target used for the cost cap are both
20 percent of price. -/
theorem c10_profit_equals_cogs_cap (ctx : MarketCtx) (cols : MarketCols) :
    ∀ (row : List Cell) (stype : String) (s rv n p rts rt : ℚ),
      cellAt row cols.sampleType = Cell.str stype →
      jsLower (jsTrim stype) = "all" →
      cellAt row cols.time ≠ Cell.null →
      cellAt row cols.sales = Cell.num s → 0 < s →
      cellAt row cols.revenue = Cell.num rv → 0 < rv →
      cellAt row cols.sampleSize = Cell.num n → 0 < n →
      cellAt row cols.price = Cell.num p → 0 < p →
      cellAt row cols.ratings = Cell.num rts → 0 < rts →
      cellAt row cols.rating = Cell.num rt → 0 < rt →
      (marketRowDocs ctx cols row).filter (fun d => d.metric = "cogs_cap") =
        [{ datasetId := ctx.datasetId, categoryId := ctx.categoryId,
           metric := "cogs_cap", bucket := jsStrOr ctx.timeRangeFrom "overall",
           value := p - ((0.2 : ℚ) * p +
             (referralFeeOrZero ctx p + ctx.latestFbaFeeUsd) + (0.2 : ℚ) * p),
           unit := "usd", sourceSheet := "Derived" }] ∧
      (marketRowDocs ctx cols row).filter (fun d => d.metric = "profit") =
        [{ datasetId := ctx.datasetId, categoryId := ctx.categoryId,
           metric := "profit", bucket := jsStrOr ctx.timeRangeFrom "overall",
           value := p - ((0.2 : ℚ) * p +
             (referralFeeOrZero ctx p + ctx.latestFbaFeeUsd) + (0.2 : ℚ) * p),
           unit := "usd", sourceSheet := "Derived" }] := by
  intro row stype s rv n p rts rt h1 h2 h3 h4 hs h5 hrv h6 hn h7 hp0 h8 hrts h9 hrt
  have hs' := not_le.mpr hs
  have hrv' := not_le.mpr hrv
  have hn' := not_le.mpr hn
  have hp' := not_le.mpr hp0
  have hrts' := not_le.mpr hrts
  have hrt' := not_le.mpr hrt
  cases hr : computeReferralFee ctx.cat ctx.rules p with
  | none =>
    simp [marketRowDocs, jsStrOrEmpty, parseNumCell, referralFeeOrZero, h1, h2, h3, h4,
      h5, h6, h7, h8, h9, hs', hrv', hn', hp', hrts', hrt', hr, List.filter]
  | some pr =>
    obtain ⟨fee, pct⟩ := pr
    simp [marketRowDocs, jsStrOrEmpty, parseNumCell, referralFeeOrZero, h1, h2, h3, h4,
      h5, h6, h7, h8, h9, hs', hrv', hn', hp', hrts', hrt', hr, List.filter]

/-- Witness for C10 at the fixture row with a nonzero referral fee (category
default 15 percent of price 25 gives 3.75) and FBA fee 3: both derived records
carry `25 - (5 + (3.75 + 3) + 5) = 8.25`. -/
theorem c10_profit_equals_cogs_cap_witness :
    cellAt maDataRow maCols.sampleType = Cell.str "All" ∧
    jsLower (jsTrim "All") = "all" ∧
    cellAt maDataRow maCols.time ≠ Cell.null ∧
    cellAt maDataRow maCols.sales = Cell.num 120 ∧ (0:ℚ) < 120 ∧
    cellAt maDataRow maCols.revenue = Cell.num 30 ∧ (0:ℚ) < 30 ∧
    cellAt maDataRow maCols.sampleSize = Cell.num 500 ∧ (0:ℚ) < 500 ∧
    cellAt maDataRow maCols.price = Cell.num 25 ∧ (0:ℚ) < 25 ∧
    cellAt maDataRow maCols.ratings = Cell.num 10 ∧ (0:ℚ) < 10 ∧
    cellAt maDataRow maCols.rating = Cell.num 4 ∧ (0:ℚ) < 4 ∧
    ((marketRowDocs c10Ctx maCols maDataRow).filter (fun d => d.metric = "cogs_cap") =
      [{ datasetId := c10Ctx.datasetId, categoryId := c10Ctx.categoryId,
         metric := "cogs_cap", bucket := jsStrOr c10Ctx.timeRangeFrom "overall",
         value := 25 - ((0.2 : ℚ) * 25 +
           (referralFeeOrZero c10Ctx 25 + c10Ctx.latestFbaFeeUsd) + (0.2 : ℚ) * 25),
         unit := "usd", sourceSheet := "Derived" }] ∧
     (marketRowDocs c10Ctx maCols maDataRow).filter (fun d => d.metric = "profit") =
      [{ datasetId := c10Ctx.datasetId, categoryId := c10Ctx.categoryId,
         metric := "profit", bucket := jsStrOr c10Ctx.timeRangeFrom "overall",
         value := 25 - ((0.2 : ℚ) * 25 +
           (referralFeeOrZero c10Ctx 25 + c10Ctx.latestFbaFeeUsd) + (0.2 : ℚ) * 25),
         unit := "usd", sourceSheet := "Derived" }]) ∧
    referralFeeOrZero c10Ctx 25 = 15/4 ∧
    25 - ((0.2 : ℚ) * 25 +
      (referralFeeOrZero c10Ctx 25 + c10Ctx.latestFbaFeeUsd) + (0.2 : ℚ) * 25) = 33/4 :=
  ⟨by with_unfolding_all rfl, by with_unfolding_all rfl, by with_unfolding_all decide,
   by with_unfolding_all rfl, by norm_num, by with_unfolding_all rfl, by norm_num,
   by with_unfolding_all rfl, by norm_num, by with_unfolding_all rfl, by norm_num,
   by with_unfolding_all rfl, by norm_num, by with_unfolding_all rfl, by norm_num,
   c10_profit_equals_cogs_cap c10Ctx maCols maDataRow "All" 120 30 500 25 10 4
     (by with_unfolding_all rfl) (by with_unfolding_all rfl)
     (by with_unfolding_all decide) (by with_unfolding_all rfl) (by norm_num)
     (by with_unfolding_all rfl) (by norm_num) (by with_unfolding_all rfl) (by norm_num)
     (by with_unfolding_all rfl) (by norm_num) (by with_unfolding_all rfl) (by norm_num)
     (by with_unfolding_all rfl) (by norm_num),
   by with_unfolding_all rfl, by with_unfolding_all rfl⟩

/-! ### Per-sheet failure isolation (C9) -/

/-- C9: in the batch auto-ingestion, a Market Analysis parse error (a 400
response through the silent transport, or a thrown error caught by the per-sheet
try/catch) leaves the store untouched and the Fulfillment sheet of the same
workbook is still parsed and its records stored. -/
theorem c9_sheet_failure_isolation (ctx : MarketCtx) (store : MetricStore)
    (rowsMA rowsF : List (List Cell)) (msg : String) (docs : List MetricDoc)
    (hMA : rowsMA ≠ []) (hF : rowsF ≠ [])
    (hErr : marketAnalysisParse ctx rowsMA (row0Header rowsMA) = Except.error msg)
    (hOk : fulfillmentParse ctx.datasetId ctx.categoryId rowsF (row0Header rowsF) =
      Except.ok docs) :
    autoIngestTwo ctx ⟨some rowsMA, some rowsF⟩ store =
      replaceSheet ctx.datasetId "Fulfillment" docs store := by
  have hMAe : rowsMA.isEmpty = false := by
    cases rowsMA with
    | nil => exact absurd rfl hMA
    | cons a l => rfl
  have hFe : rowsF.isEmpty = false := by
    cases rowsF with
    | nil => exact absurd rfl hF
    | cons a l => rfl
  have h1 : marketAnalysisIngest ctx rowsMA (row0Header rowsMA) store = store := by
    unfold marketAnalysisIngest
    rw [hErr]
  have h2 : fulfillmentIngest ctx.datasetId ctx.categoryId rowsF (row0Header rowsF)
      store = replaceSheet ctx.datasetId "Fulfillment" docs store := by
    unfold fulfillmentIngest
    rw [hOk]
  unfold autoIngestTwo
  simp only [hMAe, Bool.false_eq_true, if_false, h1, hFe, h2]

/-- Witness for C9: the workbook pairing a Market Analysis sheet missing its
Sample Type column with a well-formed Fulfillment sheet stores the fulfillment
record even though the Market Analysis handler failed. -/
theorem c9_sheet_failure_isolation_witness :
    maRowsNoSampleType ≠ [] ∧ fulfillRows ≠ [] ∧
    marketAnalysisParse maCtx maRowsNoSampleType (row0Header maRowsNoSampleType) =
      Except.error "Sample Type column not found in Market Analysis sheet" ∧
    fulfillmentParse maCtx.datasetId maCtx.categoryId fulfillRows
      (row0Header fulfillRows) = Except.ok [fulFbaDoc] ∧
    autoIngestTwo maCtx mixedWorkbook [] =
      replaceSheet maCtx.datasetId "Fulfillment" [fulFbaDoc] [] :=
  ⟨by with_unfolding_all decide, by with_unfolding_all decide,
   by with_unfolding_all rfl, by with_unfolding_all rfl,
   c9_sheet_failure_isolation maCtx [] maRowsNoSampleType fulfillRows
     "Sample Type column not found in Market Analysis sheet" [fulFbaDoc]
     (by with_unfolding_all decide) (by with_unfolding_all decide)
     (by with_unfolding_all rfl) (by with_unfolding_all rfl)⟩

/-! ### Dimensional weight chain (C7) -/

/-- C7: for a side length bracketing the cube root of the example volume 64.54
(4.011³ < 64.54 < 4.012³), the chain gives side ≈ 4.014 (within 0.003),
dimensionalWeight = side³/139 ≈ 0.4643 (within 0.0003), shippingWeight =
max(0.24, dimensionalWeight) = dimensionalWeight, and the dimensions are cubic
with lengthGirth = side + 2*(side+side) = 5*side. -/
theorem c7_dimensional_weight_chain (side : ℚ)
    (h1 : 4011/1000 ≤ side) (h2 : side ≤ 4012/1000) :
    ((4011/1000 : ℚ)^3 < 6454/100 ∧ (6454/100 : ℚ) < (4012/1000)^3) ∧
    |side - 4014/1000| ≤ 3/1000 ∧
    |dimensionalWeightOf side - 4643/10000| ≤ 3/10000 ∧
    shippingWeightOf (24/100) (dimensionalWeightOf side) = dimensionalWeightOf side ∧
    dimsOf side = ⟨side, side, side, 5 * side⟩ := by
  have hs0 : (0:ℚ) ≤ side := by
    have : (0:ℚ) ≤ 4011/1000 := by norm_num
    linarith
  have hl : (4011/1000 : ℚ)^3 ≤ side^3 := pow_le_pow_left₀ (by norm_num) h1 3
  have hu : side^3 ≤ (4012/1000 : ℚ)^3 := pow_le_pow_left₀ hs0 h2 3
  have hval1 : (4011/1000 : ℚ)^3 = 64529453331/1000000000 := by norm_num
  have hval2 : (4012/1000 : ℚ)^3 = 64577729728/1000000000 := by norm_num
  have hcube : dimensionalWeightOf side = side^3 / 139 := by
    unfold dimensionalWeightOf
    ring
  have hge : (24/100 : ℚ) ≤ dimensionalWeightOf side := by
    rw [hcube]
    rw [hval1] at hl
    linarith
  refine ⟨⟨by norm_num, by norm_num⟩, ?_, ?_, ?_, ?_⟩
  · rw [abs_le]
    constructor <;> linarith
  · rw [hcube, abs_le]
    rw [hval1] at hl
    rw [hval2] at hu
    constructor <;> linarith
  · unfold shippingWeightOf jsMax
    rw [if_pos hge]
  · simp only [dimsOf, DimsEstimate.mk.injEq, true_and]
    ring

/-- Witness for C7 at side = 4.0115, which lies in the bracket around
cbrt(64.54). -/
theorem c7_dimensional_weight_chain_witness :
    (4011/1000 : ℚ) ≤ 8023/2000 ∧ (8023/2000 : ℚ) ≤ 4012/1000 ∧
    (((4011/1000 : ℚ)^3 < 6454/100 ∧ (6454/100 : ℚ) < (4012/1000)^3) ∧
     |(8023/2000 : ℚ) - 4014/1000| ≤ 3/1000 ∧
     |dimensionalWeightOf (8023/2000) - 4643/10000| ≤ 3/10000 ∧
     shippingWeightOf (24/100) (dimensionalWeightOf (8023/2000)) =
       dimensionalWeightOf (8023/2000) ∧
     dimsOf (8023/2000) = ⟨8023/2000, 8023/2000, 8023/2000, 5 * (8023/2000)⟩) :=
  ⟨by norm_num, by norm_num,
   c7_dimensional_weight_chain (8023/2000) (by norm_num) (by norm_num)⟩

end Crawler
